import Mathlib

/-!
Verification of the grid-based accessibility and opportunity-scoring engine
of the Urban Opportunity Mapper repository.

The numeric dataframe columns of the Python source are embedded as exact
rationals; the special value positive infinity that numpy produces for
cells with no facilities is embedded by the two-constructor type ExtQ.
The constant np.pi is embedded as the exact rational value of the IEEE-754
double that numpy stores for pi.
-/

/-- A float column value that is either a finite number or positive
infinity, as numpy produces for nearest distances of empty cells. -/
inductive ExtQ where
  | fin : ℚ → ExtQ
  | inf : ExtQ
deriving Repr, DecidableEq

/-- Source src/analyze.py line 254: pandas Series.clip with an upper bound.
Finite values are capped at the bound, positive infinity becomes the bound. -/
def clipUpper (d : ExtQ) (upper : ℚ) : ℚ :=
  match d with
  | ExtQ.fin q => min q upper
  | ExtQ.inf => upper

/-- Comparison of a possibly infinite column value against a rational
threshold; positive infinity exceeds every threshold, as in numpy. -/
def ExtQ.gtQ (d : ExtQ) (c : ℚ) : Bool :=
  match d with
  | ExtQ.fin q => decide (c < q)
  | ExtQ.inf => true

/-- Whether a possibly infinite column value is nonnegative. -/
def ExtQ.nonnegB (d : ExtQ) : Bool :=
  match d with
  | ExtQ.fin q => decide (0 ≤ q)
  | ExtQ.inf => true

/-- The exact rational value of the IEEE-754 double np.pi used by
src/analyze.py line 171 for the density denominator. -/
def npPi : ℚ := 884279719003555 / 281474976710656

/-- One row of the accessibility dataframe produced by analyze_accessibility
in src/analyze.py lines 149 to 189 (section 3 of the spec). -/
structure AccessibilityRecord where
  cell_id : ℕ
  services_within_walking : ℕ
  nearest_distance_km : ExtQ
  avg_distance_top3_km : ExtQ
  density_per_km2 : ℚ
  center_lat : ℚ
  center_lng : ℚ
deriving Repr, DecidableEq

/-- One row of the dataframe returned by calculate_opportunity_scores in
src/analyze.py lines 223 to 275: the accessibility columns plus the four
score columns added by the scorer. -/
structure OpportunityRecord extends AccessibilityRecord where
  competition_gap : ℚ
  accessibility_gap : ℚ
  viability : ℚ
  opportunity_score : ℚ
deriving Repr, DecidableEq

/-- pandas Series.max over a numeric column: the maximum of a nonempty
list of rationals.  For the empty column the source branch max > 0 is
not taken either way, so 0 is returned. -/
def seriesMax : List ℚ → ℚ
  | [] => 0
  | x :: xs => xs.foldl max x

/-- Source src/analyze.py lines 258 to 260: the viability lambda over the
services_within_walking column. -/
def viabilityScore (s : ℕ) : ℚ :=
  if 1 ≤ s ∧ s ≤ 3 then 1
  else if s = 0 then 0.5
  else max 0 (1 - ((s : ℚ) - 3) / 10)

/-- Source src/analyze.py lines 223 to 275: calculate_opportunity_scores.
The input dataframe is copied, the global maximum density is taken, and
per row the three sub-scores and the weighted composite are added. -/
def calculate_opportunity_scores (accessibility_df : List AccessibilityRecord) :
    List OpportunityRecord :=
  let max_density := seriesMax (accessibility_df.map AccessibilityRecord.density_per_km2)
  accessibility_df.map (fun r =>
    let competition_gap : ℚ :=
      if max_density > 0 then 1 - r.density_per_km2 / max_density else 1
    let accessibility_gap : ℚ := clipUpper r.nearest_distance_km 3 / 3
    let viability : ℚ := viabilityScore r.services_within_walking
    { toAccessibilityRecord := r
      competition_gap := competition_gap
      accessibility_gap := accessibility_gap
      viability := viability
      opportunity_score :=
        (0.40 * competition_gap + 0.40 * accessibility_gap + 0.20 * viability) * 10 })

/-- Source src/analyze.py lines 192 to 220: identify_service_deserts filters
the rows whose nearest distance exceeds the threshold or that have fewer
than 2 services within walking distance. -/
def identify_service_deserts (accessibility_df : List AccessibilityRecord)
    (threshold_distance_km : ℚ) : List AccessibilityRecord :=
  accessibility_df.filter (fun r =>
    r.nearest_distance_km.gtQ threshold_distance_km
      || decide (r.services_within_walking < 2))

/-- Modelled from the wording of spec section 4.7: the competition gap
formula, with every cell receiving 1 when the maximum density is 0. -/
def spec_competition_gap (max_density d : ℚ) : ℚ :=
  if max_density = 0 then 1 else 1 - d / max_density

/-- Modelled from the wording of spec section 4.7: the accessibility gap
formula min of nearest distance and 3, divided by 3. -/
def spec_accessibility_gap (nd : ExtQ) : ℚ :=
  (match nd with
    | ExtQ.fin q => min q 3
    | ExtQ.inf => 3) / 3

/-- Modelled from the wording of spec section 4.7: the three-branch
viability function of services_within_walking. -/
def spec_viability (s : ℕ) : ℚ :=
  if 1 ≤ s ∧ s ≤ 3 then 1
  else if s = 0 then 0.5
  else max 0 (1 - ((s : ℚ) - 3) / 10)

/-- Modelled from the wording of spec section 4.7: the weighted supply-only
composite, scaled to the 0 to 10 range. -/
def spec_supply_score (cg ag v : ℚ) : ℚ :=
  10 * (0.40 * cg + 0.40 * ag + 0.20 * v)

lemma le_foldl_max (xs : List ℚ) (a : ℚ) : a ≤ xs.foldl max a := by
  induction xs generalizing a with
  | nil => exact le_refl a
  | cons y ys ih => exact le_trans (le_max_left a y) (ih (max a y))

lemma mem_le_foldl_max (xs : List ℚ) (a b : ℚ) (h : b ∈ xs) : b ≤ xs.foldl max a := by
  induction xs generalizing a with
  | nil => cases h
  | cons y ys ih =>
      rcases List.mem_cons.mp h with h1 | h1
      · subst h1
        exact le_trans (le_max_right a b) (le_foldl_max ys (max a b))
      · exact ih (max a y) h1

lemma le_seriesMax (l : List ℚ) (x : ℚ) (h : x ∈ l) : x ≤ seriesMax l := by
  cases l with
  | nil => cases h
  | cons y ys =>
      rcases List.mem_cons.mp h with h1 | h1
      · subst h1; exact le_foldl_max ys x
      · exact mem_le_foldl_max ys y x h1

lemma seriesMax_nonneg (l : List ℚ) (h : ∀ x ∈ l, 0 ≤ x) : 0 ≤ seriesMax l := by
  cases l with
  | nil => exact le_refl 0
  | cons y ys =>
      exact le_trans (h y (List.mem_cons_self y ys)) (le_seriesMax _ y (List.mem_cons_self y ys))

/-- C1: for every set of accessibility records with nonnegative densities
(the data-model invariant of spec section 3), the supply-only scorer
computes, per cell, the competition gap, accessibility gap, viability and
composite opportunity score exactly as spec section 4.7 states them. -/
theorem claim_C1_supply_only_scorer_formulas (recs : List AccessibilityRecord)
    (hd : ∀ r ∈ recs, 0 ≤ r.density_per_km2) :
    calculate_opportunity_scores recs = recs.map (fun r =>
      { toAccessibilityRecord := r
        competition_gap :=
          spec_competition_gap
            (seriesMax (recs.map AccessibilityRecord.density_per_km2)) r.density_per_km2
        accessibility_gap := spec_accessibility_gap r.nearest_distance_km
        viability := spec_viability r.services_within_walking
        opportunity_score :=
          spec_supply_score
            (spec_competition_gap
              (seriesMax (recs.map AccessibilityRecord.density_per_km2)) r.density_per_km2)
            (spec_accessibility_gap r.nearest_distance_km)
            (spec_viability r.services_within_walking) }) := by
  have hmx : 0 ≤ seriesMax (recs.map AccessibilityRecord.density_per_km2) := by
    apply seriesMax_nonneg
    intro x hx
    rcases List.mem_map.mp hx with ⟨r, hr, hrx⟩
    exact hrx ▸ hd r hr
  unfold calculate_opportunity_scores
  apply List.map_congr_left
  intro r _
  have hcg : (if seriesMax (recs.map AccessibilityRecord.density_per_km2) > 0 then
        1 - r.density_per_km2 / seriesMax (recs.map AccessibilityRecord.density_per_km2)
      else 1) =
      spec_competition_gap
        (seriesMax (recs.map AccessibilityRecord.density_per_km2)) r.density_per_km2 := by
    unfold spec_competition_gap
    rcases lt_or_eq_of_le hmx with hlt | heq
    · rw [if_pos hlt, if_neg (ne_of_gt hlt)]
    · rw [if_neg (by rw [← heq]; exact lt_irrefl 0), if_pos heq.symm]
  have hag : clipUpper r.nearest_distance_km 3 / 3 =
      spec_accessibility_gap r.nearest_distance_km := by
    unfold spec_accessibility_gap clipUpper
    cases r.nearest_distance_km <;> rfl
  have hv : viabilityScore r.services_within_walking =
      spec_viability r.services_within_walking := rfl
  simp only [hcg, hag, hv]
  congr 1
  unfold spec_supply_score
  ring

/-- A concrete accessibility record used to instantiate the C1 theorem. -/
def sampleAccess : AccessibilityRecord :=
  { cell_id := 0, services_within_walking := 2,
    nearest_distance_km := ExtQ.fin 2, avg_distance_top3_km := ExtQ.fin 2,
    density_per_km2 := 1, center_lat := 45, center_lng := 9 }

/-- Concrete instance discharging the hypotheses of the C1 theorem. -/
theorem claim_C1_witness :
    (∀ r ∈ [sampleAccess], 0 ≤ r.density_per_km2) ∧
    calculate_opportunity_scores [sampleAccess] = [sampleAccess].map (fun r =>
      { toAccessibilityRecord := r
        competition_gap :=
          spec_competition_gap
            (seriesMax ([sampleAccess].map AccessibilityRecord.density_per_km2))
            r.density_per_km2
        accessibility_gap := spec_accessibility_gap r.nearest_distance_km
        viability := spec_viability r.services_within_walking
        opportunity_score :=
          spec_supply_score
            (spec_competition_gap
              (seriesMax ([sampleAccess].map AccessibilityRecord.density_per_km2))
              r.density_per_km2)
            (spec_accessibility_gap r.nearest_distance_km)
            (spec_viability r.services_within_walking) }) :=
  ⟨by norm_num [sampleAccess],
   claim_C1_supply_only_scorer_formulas _ (by norm_num [sampleAccess])⟩

/-- The boundary cell of the C3 claim: nearest distance exactly 1.5 and
exactly 2 services within walking distance. -/
def boundaryCell : AccessibilityRecord :=
  { cell_id := 0, services_within_walking := 2,
    nearest_distance_km := ExtQ.fin 1.5, avg_distance_top3_km := ExtQ.fin 1.5,
    density_per_km2 := 0, center_lat := 0, center_lng := 0 }

/-- C3: membership in the desert subset returned by identify_service_deserts
at the default threshold 1.5 holds exactly for input rows with nearest
distance strictly greater than 1.5 or strictly fewer than 2 services within
walking distance; in particular the boundary cell with nearest distance
exactly 1.5 and exactly 2 services is not flagged. -/
theorem claim_C3_desert_classification :
    (∀ (recs : List AccessibilityRecord) (r : AccessibilityRecord),
      r ∈ identify_service_deserts recs 1.5 ↔
        r ∈ recs ∧ (r.nearest_distance_km.gtQ 1.5 = true ∨ r.services_within_walking < 2)) ∧
    identify_service_deserts [boundaryCell] 1.5 = [] := by
  constructor
  · intro recs r
    unfold identify_service_deserts
    rw [List.mem_filter]
    constructor
    · rintro ⟨h1, h2⟩
      refine ⟨h1, ?_⟩
      rcases Bool.or_eq_true_iff.mp h2 with h3 | h3
      · exact Or.inl h3
      · exact Or.inr (of_decide_eq_true h3)
    · rintro ⟨h1, h2⟩
      refine ⟨h1, Bool.or_eq_true_iff.mpr ?_⟩
      rcases h2 with h3 | h3
      · exact Or.inl h3
      · exact Or.inr (decide_eq_true h3)
  · norm_num [identify_service_deserts, boundaryCell, ExtQ.gtQ, List.filter]

/-- C10: the desert classifier and the supply-only scorer leave their input
untouched (both act on a copy of the dataframe, src/analyze.py lines 240 and
207 to 210); projecting the scorer output back to the input columns returns
the input exactly, so only the four score columns are added, and the desert
subset is a sublist of unchanged input rows. -/
theorem claim_C10_no_mutation_of_input (recs : List AccessibilityRecord) (threshold : ℚ) :
    (calculate_opportunity_scores recs).map OpportunityRecord.toAccessibilityRecord = recs ∧
    List.Sublist (identify_service_deserts recs threshold) recs := by
  constructor
  · unfold calculate_opportunity_scores
    rw [List.map_map]
    exact List.map_id recs
  · exact List.filter_sublist recs

/-- One row of the distance matrix produced by calculate_distance_matrix in
src/analyze.py lines 85 to 122 (one record per cell and facility pair). -/
structure DistanceRecord where
  cell_id : ℕ
  place_id : String
  distance_km : ℚ
deriving Repr, DecidableEq

/-- The part of a grid cell consumed by analyze_accessibility: its id and
the center coordinates merged back into the result at line 186. -/
structure AnalysisCell where
  cell_id : ℕ
  center_lat : ℚ
  center_lng : ℚ
deriving Repr, DecidableEq

/-- Insert a value into a sorted list of rationals, keeping order. -/
def insertSorted (x : ℚ) : List ℚ → List ℚ
  | [] => [x]
  | y :: ys => if x ≤ y then x :: y :: ys else y :: insertSorted x ys

/-- Ascending insertion sort, embedding pandas sort_values on the
distance_km column in src/analyze.py line 152. -/
def sortAsc : List ℚ → List ℚ
  | [] => []
  | x :: xs => insertSorted x (sortAsc xs)

/-- Source src/analyze.py lines 149 to 181, the per-cell body of the
accessibility loop: filter the distance records of one cell, sort them,
and reduce them to the four accessibility metrics. -/
def analyzeCellRecord (cell : AnalysisCell) (distances : List DistanceRecord)
    (walking_distance_km : ℚ) : AccessibilityRecord :=
  let cell_distances :=
    sortAsc ((distances.filter (fun d => d.cell_id == cell.cell_id)).map
      DistanceRecord.distance_km)
  let within_walking :=
    (cell_distances.filter (fun d => decide (d ≤ walking_distance_km))).length
  let nearest_distance :=
    match cell_distances with
    | [] => ExtQ.inf
    | d :: _ => ExtQ.fin d
  let top_3 := cell_distances.take 3
  let avg_distance_top3 :=
    match top_3 with
    | [] => ExtQ.inf
    | _ :: _ => ExtQ.fin (top_3.sum / (top_3.length : ℚ))
  let services_1km := (cell_distances.filter (fun d => decide (d ≤ 1))).length
  { cell_id := cell.cell_id
    services_within_walking := within_walking
    nearest_distance_km := nearest_distance
    avg_distance_top3_km := avg_distance_top3
    density_per_km2 := (services_1km : ℚ) / (npPi * 1 ^ 2)
    center_lat := cell.center_lat
    center_lng := cell.center_lng }

/-- Source src/analyze.py lines 125 to 189: analyze_accessibility loops the
per-cell reduction over every grid cell and merges the cell coordinates. -/
def analyze_accessibility (grid_cells : List AnalysisCell)
    (distances : List DistanceRecord) (walking_distance_km : ℚ) :
    List AccessibilityRecord :=
  grid_cells.map (fun c => analyzeCellRecord c distances walking_distance_km)

/-- C5: a grid cell with zero associated distance records is still
processed (the Analyzer is total), and yields nearest distance and top-3
average positive infinity, zero services within walking distance, zero
density, and the supply-only scorer then assigns that cell viability 0.5
and accessibility gap 1. -/
theorem claim_C5_no_facility_cell (grid_cells : List AnalysisCell)
    (distances : List DistanceRecord) (cell : AnalysisCell)
    (hmem : cell ∈ grid_cells)
    (hnone : ∀ d ∈ distances, d.cell_id ≠ cell.cell_id) :
    analyzeCellRecord cell distances 1 =
      { cell_id := cell.cell_id, services_within_walking := 0,
        nearest_distance_km := ExtQ.inf, avg_distance_top3_km := ExtQ.inf,
        density_per_km2 := 0, center_lat := cell.center_lat,
        center_lng := cell.center_lng } ∧
    analyzeCellRecord cell distances 1 ∈ analyze_accessibility grid_cells distances 1 ∧
    (∀ (recs : List AccessibilityRecord) (p : OpportunityRecord),
      p ∈ calculate_opportunity_scores recs →
      p.toAccessibilityRecord = analyzeCellRecord cell distances 1 →
      p.viability = 0.5 ∧ p.accessibility_gap = 1) := by
  have hfilter : distances.filter (fun d => d.cell_id == cell.cell_id) = [] := by
    rw [List.filter_eq_nil_iff]
    intro d hd
    simpa using hnone d hd
  have hrec : analyzeCellRecord cell distances 1 =
      { cell_id := cell.cell_id, services_within_walking := 0,
        nearest_distance_km := ExtQ.inf, avg_distance_top3_km := ExtQ.inf,
        density_per_km2 := 0, center_lat := cell.center_lat,
        center_lng := cell.center_lng } := by
    unfold analyzeCellRecord
    rw [hfilter]
    simp [sortAsc]
  refine ⟨hrec, List.mem_map.mpr ⟨cell, hmem, rfl⟩, ?_⟩
  intro recs p hp hbase
  unfold calculate_opportunity_scores at hp
  rcases List.mem_map.mp hp with ⟨r, _, hr⟩
  have hbr : r = analyzeCellRecord cell distances 1 := by
    rw [← hbase, ← hr]
  rw [hrec] at hbr
  constructor
  · have : p.viability = viabilityScore r.services_within_walking := by rw [← hr]
    rw [this, hbr]
    norm_num [viabilityScore]
  · have : p.accessibility_gap = clipUpper r.nearest_distance_km 3 / 3 := by rw [← hr]
    rw [this, hbr]
    norm_num [clipUpper]

/-- A concrete cell and distance set (a record of a different cell) used to
instantiate the C5 theorem. -/
def sampleEmptyCell : AnalysisCell := { cell_id := 7, center_lat := 45, center_lng := 9 }

/-- A distance record belonging to another cell, so cell 7 has none. -/
def sampleOtherDistance : DistanceRecord :=
  { cell_id := 3, place_id := "p1", distance_km := 2 }

/-- Concrete instance discharging the hypotheses of the C5 theorem. -/
theorem claim_C5_witness :
    analyzeCellRecord sampleEmptyCell [sampleOtherDistance] 1 =
      { cell_id := sampleEmptyCell.cell_id, services_within_walking := 0,
        nearest_distance_km := ExtQ.inf, avg_distance_top3_km := ExtQ.inf,
        density_per_km2 := 0, center_lat := sampleEmptyCell.center_lat,
        center_lng := sampleEmptyCell.center_lng } ∧
    analyzeCellRecord sampleEmptyCell [sampleOtherDistance] 1 ∈
      analyze_accessibility [sampleEmptyCell] [sampleOtherDistance] 1 ∧
    (∀ (recs : List AccessibilityRecord) (p : OpportunityRecord),
      p ∈ calculate_opportunity_scores recs →
      p.toAccessibilityRecord = analyzeCellRecord sampleEmptyCell [sampleOtherDistance] 1 →
      p.viability = 0.5 ∧ p.accessibility_gap = 1) :=
  claim_C5_no_facility_cell [sampleEmptyCell] [sampleOtherDistance] sampleEmptyCell
    (by norm_num)
    (by norm_num [sampleOtherDistance, sampleEmptyCell])

/-- One row of an analysis dataframe after the Population Enricher added the
population_1km column (src/population_data.py lines 158 to 183), as handed
to recalculate_opportunity_with_population. -/
structure EnrichedRecord extends OpportunityRecord where
  population_1km : ℚ
deriving Repr, DecidableEq

/-- One row of the dataframe returned by
recalculate_opportunity_with_population: the enriched columns, a demand
score, the recomputed opportunity_score stored in place, and the
pre-recompute score kept in opportunity_score_original. -/
structure DemandRecord extends EnrichedRecord where
  demand_score : ℚ
  opportunity_score_original : ℚ
deriving Repr, DecidableEq

/-- Source src/population_data.py lines 215 to 260:
recalculate_opportunity_with_population.  Per row: normalize population by
the column maximum, force demand to 0 below 100 population, keep the old
score in opportunity_score_original, recompute the composite with the
0.30 0.30 0.30 0.10 weights, then zero the score below 100 population. -/
def recalculate_opportunity_with_population (df : List EnrichedRecord) :
    List DemandRecord :=
  let max_pop := seriesMax (df.map EnrichedRecord.population_1km)
  df.map (fun r =>
    let demand0 : ℚ := if max_pop > 0 then r.population_1km / max_pop else 0
    let demand : ℚ := if r.population_1km < 100 then 0 else demand0
    let new_score0 : ℚ :=
      (0.30 * r.competition_gap + 0.30 * r.accessibility_gap
        + 0.30 * demand + 0.10 * r.viability) * 10
    let new_score : ℚ := if r.population_1km < 100 then 0 else new_score0
    { toEnrichedRecord := { r with opportunity_score := new_score }
      demand_score := demand
      opportunity_score_original := r.opportunity_score })

/-- Modelled from the wording of spec section 4.8: demand normalization
with the sub-100-population hard floor. -/
def spec_demand_score (max_pop p : ℚ) : ℚ :=
  if p < 100 then 0 else if max_pop = 0 then 0 else p / max_pop

/-- Modelled from the wording of spec section 4.8: the demand-weighted
composite with weights 0.30, 0.30, 0.30, 0.10, scaled to 0 to 10. -/
def spec_demand_opportunity (cg ag ds v : ℚ) : ℚ :=
  10 * (0.30 * cg + 0.30 * ag + 0.30 * ds + 0.10 * v)

/-- C2: under the demand-weighted policy every output row whose
population_1km is below 100 has demand_score 0 and opportunity_score
exactly 0, whatever its competition gap, accessibility gap and viability. -/
theorem claim_C2_demand_floor (df : List EnrichedRecord) (p : DemandRecord)
    (hp : p ∈ recalculate_opportunity_with_population df)
    (hlow : p.population_1km < 100) :
    p.demand_score = 0 ∧ p.opportunity_score = 0 := by
  unfold recalculate_opportunity_with_population at hp
  rcases List.mem_map.mp hp with ⟨r, _, hr⟩
  have hpop : p.population_1km = r.population_1km := by rw [← hr]
  rw [hpop] at hlow
  constructor
  · have : p.demand_score =
        (if r.population_1km < 100 then 0
         else if seriesMax (df.map EnrichedRecord.population_1km) > 0 then
           r.population_1km / seriesMax (df.map EnrichedRecord.population_1km)
         else 0) := by rw [← hr]
    rw [this, if_pos hlow]
  · have : p.opportunity_score =
        (if r.population_1km < 100 then 0
         else (0.30 * r.competition_gap + 0.30 * r.accessibility_gap
            + 0.30 * (if r.population_1km < 100 then 0
              else if seriesMax (df.map EnrichedRecord.population_1km) > 0 then
                r.population_1km / seriesMax (df.map EnrichedRecord.population_1km)
              else 0) + 0.10 * r.viability) * 10) := by rw [← hr]
    rw [this, if_pos hlow]

/-- A concrete low-population enriched record for the C2 witness and the
C6 counterexample: population 50, all supply sub-scores 1. -/
def lowPopRecord : EnrichedRecord :=
  { cell_id := 0, services_within_walking := 1,
    nearest_distance_km := ExtQ.fin 2, avg_distance_top3_km := ExtQ.fin 2,
    density_per_km2 := 0, center_lat := 45, center_lng := 9,
    competition_gap := 1, accessibility_gap := 1, viability := 1,
    opportunity_score := 10, population_1km := 50 }

/-- A concrete well-populated enriched record: population 1000. -/
def highPopRecord : EnrichedRecord :=
  { cell_id := 1, services_within_walking := 1,
    nearest_distance_km := ExtQ.fin 2, avg_distance_top3_km := ExtQ.fin 2,
    density_per_km2 := 0, center_lat := 45, center_lng := 9,
    competition_gap := 1, accessibility_gap := 1, viability := 1,
    opportunity_score := 10, population_1km := 1000 }

/-- The first output row of the demand-weighted rescoring of the concrete
two-row set: demand and score are floored to 0 at population 50. -/
def lowPopOutput : DemandRecord :=
  { cell_id := 0, services_within_walking := 1,
    nearest_distance_km := ExtQ.fin 2, avg_distance_top3_km := ExtQ.fin 2,
    density_per_km2 := 0, center_lat := 45, center_lng := 9,
    competition_gap := 1, accessibility_gap := 1, viability := 1,
    opportunity_score := 0, population_1km := 50,
    demand_score := 0, opportunity_score_original := 10 }

/-- Concrete instance discharging the hypotheses of the C2 theorem. -/
theorem claim_C2_witness :
    lowPopOutput.demand_score = 0 ∧ lowPopOutput.opportunity_score = 0 :=
  claim_C2_demand_floor [lowPopRecord, highPopRecord] lowPopOutput
    (by norm_num [recalculate_opportunity_with_population, seriesMax,
      lowPopRecord, highPopRecord, lowPopOutput])
    (by norm_num [lowPopOutput])

/-- C6 counterexample: in the two-row set with populations 50 and 1000 the
code gives the first row demand_score 0 (the sub-100 floor of
src/population_data.py line 234), while the formula of the claim,
population_1km divided by the column maximum, gives 1/20; so the claim as
stated fails on this input. -/
theorem claim_C6_counterexample :
    (recalculate_opportunity_with_population [lowPopRecord, highPopRecord]).map
      DemandRecord.demand_score = [0, 1] ∧
    lowPopRecord.population_1km /
      seriesMax ([lowPopRecord, highPopRecord].map EnrichedRecord.population_1km) =
      1 / 20 ∧
    (0 : ℚ) ≠ 1 / 20 := by
  refine ⟨?_, ?_, by norm_num⟩
  · norm_num [recalculate_opportunity_with_population, seriesMax,
      lowPopRecord, highPopRecord]
  · norm_num [seriesMax, lowPopRecord, highPopRecord]

/-- C6 amended: for every record set with nonnegative population_1km, the
demand-weighted rescoring computes demand_score as population over column
maximum (0 for all rows when that maximum is 0), except that rows with
population below 100 get demand_score 0; sets opportunity_score to
10 times (0.30 competition gap + 0.30 accessibility gap + 0.30 demand +
0.10 viability), except that the same sub-100 rows get opportunity_score
0; and stores the pre-recompute score unchanged in
opportunity_score_original. -/
theorem claim_C6_demand_weighted_formulas (df : List EnrichedRecord)
    (hp : ∀ r ∈ df, 0 ≤ r.population_1km) :
    recalculate_opportunity_with_population df = df.map (fun r =>
      { toEnrichedRecord :=
          { r with opportunity_score :=
                       if r.population_1km < 100 then 0
                       else
                         spec_demand_opportunity r.competition_gap r.accessibility_gap
                           (spec_demand_score
                             (seriesMax (df.map EnrichedRecord.population_1km))
                             r.population_1km)
                           r.viability }
        demand_score :=
          spec_demand_score (seriesMax (df.map EnrichedRecord.population_1km))
            r.population_1km
        opportunity_score_original := r.opportunity_score }) := by
  have hmx : 0 ≤ seriesMax (df.map EnrichedRecord.population_1km) := by
    apply seriesMax_nonneg
    intro x hx
    rcases List.mem_map.mp hx with ⟨r, hr, hrx⟩
    exact hrx ▸ hp r hr
  unfold recalculate_opportunity_with_population
  apply List.map_congr_left
  intro r _
  have hds :
      (if r.population_1km < 100 then (0 : ℚ)
       else if seriesMax (df.map EnrichedRecord.population_1km) > 0 then
         r.population_1km / seriesMax (df.map EnrichedRecord.population_1km)
       else 0) =
      spec_demand_score (seriesMax (df.map EnrichedRecord.population_1km))
        r.population_1km := by
    unfold spec_demand_score
    by_cases hcase : r.population_1km < 100
    · rw [if_pos hcase, if_pos hcase]
    · rw [if_neg hcase, if_neg hcase]
      rcases lt_or_eq_of_le hmx with hlt | heq
      · rw [if_pos hlt, if_neg (ne_of_gt hlt)]
      · rw [if_neg (show ¬seriesMax (df.map EnrichedRecord.population_1km) > 0 by
            rw [← heq]; exact lt_irrefl 0), if_pos heq.symm]
  simp only [hds]
  have hsc :
      (if r.population_1km < 100 then (0 : ℚ)
       else (0.30 * r.competition_gap + 0.30 * r.accessibility_gap
          + 0.30 * spec_demand_score
              (seriesMax (df.map EnrichedRecord.population_1km)) r.population_1km
          + 0.10 * r.viability) * 10) =
      (if r.population_1km < 100 then (0 : ℚ)
       else spec_demand_opportunity r.competition_gap r.accessibility_gap
          (spec_demand_score (seriesMax (df.map EnrichedRecord.population_1km))
            r.population_1km) r.viability) := by
    by_cases hcase : r.population_1km < 100
    · rw [if_pos hcase, if_pos hcase]
    · rw [if_neg hcase, if_neg hcase]
      unfold spec_demand_opportunity
      ring
  simp only [hsc]

/-- Concrete instance discharging the hypotheses of the amended C6
theorem. -/
theorem claim_C6_witness :
    recalculate_opportunity_with_population [highPopRecord] =
      [highPopRecord].map (fun r =>
        { toEnrichedRecord :=
            { r with opportunity_score :=
                         if r.population_1km < 100 then 0
                         else
                           spec_demand_opportunity r.competition_gap r.accessibility_gap
                             (spec_demand_score
                               (seriesMax ([highPopRecord].map EnrichedRecord.population_1km))
                               r.population_1km)
                             r.viability }
          demand_score :=
            spec_demand_score
              (seriesMax ([highPopRecord].map EnrichedRecord.population_1km))
              r.population_1km
          opportunity_score_original := r.opportunity_score }) :=
  claim_C6_demand_weighted_formulas [highPopRecord]
    (by norm_num [highPopRecord])

/-- The enrichment step that pairs each scored row with its aggregated
population_1km value (src/population_data.py lines 158 to 183, with the
raster sampling and radius sum supplied by external collaborators). -/
def attach_population (recs : List OpportunityRecord) (pops : List ℚ) :
    List EnrichedRecord :=
  List.zipWith (fun r p => { toOpportunityRecord := r, population_1km := p }) recs pops

lemma mem_zipWith_elim {α β γ : Type} (f : α → β → γ) (l1 : List α) (l2 : List β)
    (x : γ) (h : x ∈ List.zipWith f l1 l2) :
    ∃ a b, a ∈ l1 ∧ b ∈ l2 ∧ x = f a b := by
  induction l1 generalizing l2 with
  | nil => cases h
  | cons a as ih =>
      cases l2 with
      | nil => cases h
      | cons b bs =>
          rcases List.mem_cons.mp h with h1 | h1
          · exact ⟨a, b, List.mem_cons_self a as, List.mem_cons_self b bs, h1⟩
          · rcases ih bs h1 with ⟨a2, b2, ha, hb, hx⟩
            exact ⟨a2, b2, List.mem_cons_of_mem a ha, List.mem_cons_of_mem b hb, hx⟩

lemma viabilityScore_bounds (s : ℕ) : 0 ≤ viabilityScore s ∧ viabilityScore s ≤ 1 := by
  unfold viabilityScore
  split_ifs with h1 h2
  · norm_num
  · norm_num
  · have hs : 4 ≤ s := by omega
    have hsq : (4 : ℚ) ≤ (s : ℚ) := by exact_mod_cast hs
    constructor
    · exact le_max_left 0 _
    · apply max_le (by norm_num)
      linarith

lemma clip_div_bounds (d : ExtQ) (h : d.nonnegB = true) :
    0 ≤ clipUpper d 3 / 3 ∧ clipUpper d 3 / 3 ≤ 1 := by
  cases d with
  | fin q =>
      have hq : 0 ≤ q := of_decide_eq_true h
      unfold clipUpper
      constructor
      · positivity
      · have : min q 3 ≤ 3 := min_le_right q 3
        linarith
  | inf =>
      unfold clipUpper
      norm_num

lemma calc_scores_mem_bounds (recs : List AccessibilityRecord)
    (hd : ∀ r ∈ recs, 0 ≤ r.density_per_km2)
    (hn : ∀ r ∈ recs, r.nearest_distance_km.nonnegB = true)
    (p : OpportunityRecord) (hp : p ∈ calculate_opportunity_scores recs) :
    (0 ≤ p.competition_gap ∧ p.competition_gap ≤ 1) ∧
    (0 ≤ p.accessibility_gap ∧ p.accessibility_gap ≤ 1) ∧
    (0 ≤ p.viability ∧ p.viability ≤ 1) ∧
    (0 ≤ p.opportunity_score ∧ p.opportunity_score ≤ 10) := by
  unfold calculate_opportunity_scores at hp
  rcases List.mem_map.mp hp with ⟨r, hr, hfr⟩
  have hcg : (0 ≤ p.competition_gap ∧ p.competition_gap ≤ 1) := by
    have hform : p.competition_gap =
        (if seriesMax (recs.map AccessibilityRecord.density_per_km2) > 0 then
          1 - r.density_per_km2 / seriesMax (recs.map AccessibilityRecord.density_per_km2)
        else 1) := by rw [← hfr]
    rw [hform]
    split_ifs with hmx
    · have hdr : 0 ≤ r.density_per_km2 := hd r hr
      have hle : r.density_per_km2 ≤
          seriesMax (recs.map AccessibilityRecord.density_per_km2) :=
        le_seriesMax _ _ (List.mem_map.mpr ⟨r, hr, rfl⟩)
      constructor
      · have : r.density_per_km2 /
            seriesMax (recs.map AccessibilityRecord.density_per_km2) ≤ 1 :=
          (div_le_one hmx).mpr hle
        linarith
      · have : 0 ≤ r.density_per_km2 /
            seriesMax (recs.map AccessibilityRecord.density_per_km2) :=
          div_nonneg hdr (le_of_lt hmx)
        linarith
    · norm_num
  have hag : (0 ≤ p.accessibility_gap ∧ p.accessibility_gap ≤ 1) := by
    have hform : p.accessibility_gap = clipUpper r.nearest_distance_km 3 / 3 := by
      rw [← hfr]
    rw [hform]
    exact clip_div_bounds r.nearest_distance_km (hn r hr)
  have hv : (0 ≤ p.viability ∧ p.viability ≤ 1) := by
    have hform : p.viability = viabilityScore r.services_within_walking := by rw [← hfr]
    rw [hform]
    exact viabilityScore_bounds r.services_within_walking
  refine ⟨hcg, hag, hv, ?_⟩
  have hform : p.opportunity_score =
      (0.40 * p.competition_gap + 0.40 * p.accessibility_gap + 0.20 * p.viability) * 10 := by
    rw [← hfr]
  rw [hform]
  constructor
  · nlinarith [hcg.1, hag.1, hv.1]
  · nlinarith [hcg.2, hag.2, hv.2]

/-- C4: for every record set with nonnegative densities and nonnegative
(possibly infinite) nearest distances, and every nonnegative population
column, the opportunity_score of every row lies in the closed interval
0 to 10 under the supply-only policy and under the demand-weighted policy
applied to the supply-only output. -/
theorem claim_C4_score_bounds (recs : List AccessibilityRecord) (pops : List ℚ)
    (hd : ∀ r ∈ recs, 0 ≤ r.density_per_km2)
    (hn : ∀ r ∈ recs, r.nearest_distance_km.nonnegB = true)
    (hpp : ∀ q ∈ pops, 0 ≤ q) :
    (∀ p ∈ calculate_opportunity_scores recs,
      0 ≤ p.opportunity_score ∧ p.opportunity_score ≤ 10) ∧
    (∀ p ∈ recalculate_opportunity_with_population
        (attach_population (calculate_opportunity_scores recs) pops),
      0 ≤ p.opportunity_score ∧ p.opportunity_score ≤ 10) := by
  constructor
  · intro p hp
    exact (calc_scores_mem_bounds recs hd hn p hp).2.2.2
  · intro p hp
    unfold recalculate_opportunity_with_population at hp
    rcases List.mem_map.mp hp with ⟨e, he, hfe⟩
    rcases mem_zipWith_elim _ _ _ e he with ⟨q, pop, hq, hpop, hqe⟩
    have hbounds := calc_scores_mem_bounds recs hd hn q hq
    have hecg : e.competition_gap = q.competition_gap := by rw [hqe]
    have heag : e.accessibility_gap = q.accessibility_gap := by rw [hqe]
    have hev : e.viability = q.viability := by rw [hqe]
    have hepop : e.population_1km = pop := by rw [hqe]
    have hpop0 : 0 ≤ e.population_1km := by rw [hepop]; exact hpp pop hpop
    set mp := seriesMax ((attach_population (calculate_opportunity_scores recs)
      pops).map EnrichedRecord.population_1km) with hmp
    have hple : e.population_1km ≤ mp :=
      le_seriesMax _ _ (List.mem_map.mpr ⟨e, he, rfl⟩)
    have hds : 0 ≤ (if e.population_1km < 100 then (0 : ℚ)
        else if mp > 0 then e.population_1km / mp else 0) ∧
        (if e.population_1km < 100 then (0 : ℚ)
        else if mp > 0 then e.population_1km / mp else 0) ≤ 1 := by
      split_ifs with h1 h2
      · norm_num
      · exact ⟨div_nonneg hpop0 (le_of_lt h2), (div_le_one h2).mpr hple⟩
      · norm_num
    have hform : p.opportunity_score =
        (if e.population_1km < 100 then (0 : ℚ)
         else (0.30 * e.competition_gap + 0.30 * e.accessibility_gap
            + 0.30 * (if e.population_1km < 100 then (0 : ℚ)
              else if mp > 0 then e.population_1km / mp else 0)
            + 0.10 * e.viability) * 10) := by
      rw [← hfe]
    rw [hform, hecg, heag, hev]
    by_cases h1 : e.population_1km < 100
    · rw [if_pos h1]
      norm_num
    · simp only [if_neg h1]
      simp only [if_neg h1] at hds
      constructor
      · nlinarith [hbounds.1.1, hbounds.2.1.1, hbounds.2.2.1.1, hds.1]
      · nlinarith [hbounds.1.2, hbounds.2.1.2, hbounds.2.2.1.2, hds.2]

/-- Concrete instance discharging the hypotheses of the C4 theorem, at the
first output row of a one-cell record set with population 200. -/
theorem claim_C4_witness :
    (∀ p ∈ calculate_opportunity_scores [sampleAccess],
      0 ≤ p.opportunity_score ∧ p.opportunity_score ≤ 10) ∧
    (∀ p ∈ recalculate_opportunity_with_population
        (attach_population (calculate_opportunity_scores [sampleAccess]) [200]),
      0 ≤ p.opportunity_score ∧ p.opportunity_score ≤ 10) :=
  claim_C4_score_bounds [sampleAccess] [200]
    (by norm_num [sampleAccess])
    (by norm_num [sampleAccess, ExtQ.nonnegB])
    (by norm_num)

/-- The per-category entry of the batch summary dict built by
analyze_all_business_types in src/analyze.py lines 428 to 470: either a
success payload or the stringified exception. -/
inductive BatchStatus (α : Type) where
  | success : α → BatchStatus α
  | error : String → BatchStatus α
deriving Repr, DecidableEq

/-- Source src/analyze.py lines 430 to 451: the batch loop.  Each business
type is processed inside try and except; the summary gains one entry per
type, marked success with its payload or error with the exception text,
and the loop then continues with the remaining types. -/
def batch_loop {α : Type} (work : String → Except String α) :
    List String → List (String × BatchStatus α) → List (String × BatchStatus α)
  | [], results_summary => results_summary
  | t :: ts, results_summary =>
      batch_loop work ts (results_summary ++
        [(t, match work t with
             | Except.ok a => BatchStatus.success a
             | Except.error e => BatchStatus.error e)])

/-- Source src/analyze.py lines 404 to 470: analyze_all_business_types runs
the batch loop over the collected business types, starting from an empty
summary, and ends by emitting the summary table.  The fallible
analyze_city plus load_data body of one iteration is abstracted as the
Except-valued argument work. -/
def analyze_all_business_types {α : Type} (work : String → Except String α)
    (business_types : List String) : List (String × BatchStatus α) :=
  batch_loop work business_types []

lemma batch_loop_spec {α : Type} (work : String → Except String α)
    (ts : List String) (acc : List (String × BatchStatus α)) :
    batch_loop work ts acc = acc ++ ts.map (fun t => (t,
      match work t with
      | Except.ok a => BatchStatus.success a
      | Except.error e => BatchStatus.error e)) := by
  induction ts generalizing acc with
  | nil => simp [batch_loop]
  | cons t ts ih =>
      rw [batch_loop, ih]
      simp

/-- C9: the batch driver isolates per-category failures: for every work
function and every sequence of business types, the final summary has
exactly one entry per processed type in order, marked success when that
analysis of that type returned a result and error when it raised, so a failure
on one type never prevents the remaining types from being processed. -/
theorem claim_C9_batch_isolation (α : Type) (work : String → Except String α)
    (business_types : List String) :
    analyze_all_business_types work business_types =
      business_types.map (fun t => (t,
        match work t with
        | Except.ok a => BatchStatus.success a
        | Except.error e => BatchStatus.error e)) ∧
    (analyze_all_business_types work business_types).map Prod.fst = business_types := by
  have h := batch_loop_spec work business_types []
  constructor
  · rw [analyze_all_business_types, h]
    simp
  · rw [analyze_all_business_types, h]
    simp only [List.nil_append, List.map_map]
    exact (List.map_congr_left (fun t _ => rfl)).trans (List.map_id _)

/-- Named region bounds, spec section 3: north, south, east, west in
degrees.  Coordinates are real numbers here because the longitude step of
the Grid Builder involves the cosine of the center latitude. -/
structure RegionBounds where
  north : ℝ
  south : ℝ
  east : ℝ
  west : ℝ

/-- One grid cell as built by create_analysis_grid in src/analyze.py lines
38 to 82: sequential id, center, and bounds at center plus or minus half a
step. -/
structure GridCellGeo where
  cell_id : ℕ
  center_lat : ℝ
  center_lng : ℝ
  lat_min : ℝ
  lat_max : ℝ
  lng_min : ℝ
  lng_max : ℝ

/-- The boundary-inclusive stepping loop of create_analysis_grid
(src/analyze.py lines 61 to 78): visit start, start + step, ... while the
value stays at most stop.  The Python loop never terminates when the step
is not positive, so that case is mapped to the empty list. -/
noncomputable def stepPoints (start stop step : ℝ) : List ℝ :=
  if h : start ≤ stop ∧ 0 < step then
    start :: stepPoints (start + step) stop step
  else []
termination_by (⌈(stop - start) / step⌉ + 1).toNat
decreasing_by
  obtain ⟨h1, h2⟩ := h
  have hne : step ≠ 0 := ne_of_gt h2
  have hr : (0 : ℝ) ≤ (stop - start) / step := div_nonneg (by linarith) h2.le
  have hceil : 0 ≤ ⌈(stop - start) / step⌉ := Int.ceil_nonneg hr
  have heq : (stop - (start + step)) / step = (stop - start) / step - 1 := by
    rw [show stop - (start + step) = stop - start - step by ring, sub_div, div_self hne]
  rw [heq, Int.ceil_sub_one]
  omega

lemma stepPoints_nil (start stop step : ℝ) (h : ¬(start ≤ stop ∧ 0 < step)) :
    stepPoints start stop step = [] := by
  rw [stepPoints]
  exact dif_neg h

lemma stepPoints_cons (start stop step : ℝ) (h1 : start ≤ stop) (h2 : 0 < step) :
    stepPoints start stop step = start :: stepPoints (start + step) stop step := by
  rw [stepPoints]
  exact dif_pos ⟨h1, h2⟩

lemma stepPoints_length_aux (k : ℕ) :
    ∀ (start stop step : ℝ), 0 < step → start ≤ stop →
    ⌊(stop - start) / step⌋ = (k : ℤ) →
    (stepPoints start stop step).length = k + 1 := by
  induction k with
  | zero =>
      intro start stop step h2 h1 hfl
      rw [stepPoints_cons start stop step h1 h2]
      have hlt : (stop - start) / step < 1 := by
        have h := Int.lt_floor_add_one ((stop - start) / step)
        rw [hfl] at h
        norm_num at h
        exact h
      have hstop : stop < start + step := by
        by_contra hcon
        push_neg at hcon
        have : (1 : ℝ) ≤ (stop - start) / step := by
          rw [le_div_iff h2]
          linarith
        linarith
      rw [stepPoints_nil (start + step) stop step
        (fun hc => absurd hc.1 (not_le.mpr hstop))]
      rfl
  | succ n ih =>
      intro start stop step h2 h1 hfl
      rw [stepPoints_cons start stop step h1 h2]
      have hge : ((n : ℝ) + 1) ≤ (stop - start) / step := by
        have h := Int.floor_le ((stop - start) / step)
        rw [hfl] at h
        exact_mod_cast h
      have h1' : start + step ≤ stop := by
        have hge1 : (1 : ℝ) ≤ (stop - start) / step := by
          have hn : (0 : ℝ) ≤ (n : ℝ) := Nat.cast_nonneg n
          linarith
        rw [le_div_iff h2] at hge1
        linarith
      have hfl' : ⌊(stop - (start + step)) / step⌋ = (n : ℤ) := by
        have heq : (stop - (start + step)) / step = (stop - start) / step - 1 := by
          rw [show stop - (start + step) = stop - start - step by ring, sub_div,
            div_self (ne_of_gt h2)]
        rw [heq, Int.floor_sub_one, hfl]
        push_cast
        ring
      rw [List.length_cons, ih (start + step) stop step h2 h1' hfl']
lemma stepPoints_length (start stop step : ℝ) (h2 : 0 < step) (h1 : start ≤ stop) :
    (stepPoints start stop step).length = (⌊(stop - start) / step⌋).toNat + 1 := by
  apply stepPoints_length_aux
  · exact h2
  · exact h1
  · exact (Int.toNat_of_nonneg (Int.floor_nonneg.mpr
      (div_nonneg (by linarith) h2.le))).symm

/-- Source src/analyze.py lines 38 to 82: create_analysis_grid.  The
latitude step is grid_size_km / 111, the longitude step corrects for
latitude compression with the cosine of the center latitude in radians,
and the nested boundary-inclusive loops emit cells with sequential ids in
row-major order. -/
noncomputable def create_analysis_grid (bounds : RegionBounds) (grid_size_km : ℝ) :
    List GridCellGeo :=
  ((stepPoints bounds.south bounds.north (grid_size_km / 111)).map (fun lat =>
      (stepPoints bounds.west bounds.east
        (grid_size_km /
          (111 * Real.cos (((bounds.north + bounds.south) / 2) * (Real.pi / 180))))).map
        (fun lng => (lat, lng)))).flatten.enum.map
    (fun p =>
      { cell_id := p.1
        center_lat := p.2.1
        center_lng := p.2.2
        lat_min := p.2.1 - grid_size_km / 111 / 2
        lat_max := p.2.1 + grid_size_km / 111 / 2
        lng_min := p.2.2 - grid_size_km /
          (111 * Real.cos (((bounds.north + bounds.south) / 2) * (Real.pi / 180))) / 2
        lng_max := p.2.2 + grid_size_km /
          (111 * Real.cos (((bounds.north + bounds.south) / 2) * (Real.pi / 180))) / 2 })

lemma pairs_flatten_length (l1 l2 : List ℝ) :
    ((l1.map (fun a => l2.map (fun b => (a, b)))).flatten).length =
      l1.length * l2.length := by
  induction l1 with
  | nil => simp
  | cons a as ih =>
      simp only [List.map_cons, List.flatten_cons, List.length_append, List.length_map, ih,
        List.length_cons]
      ring

lemma create_analysis_grid_length (bounds : RegionBounds) (grid_size_km : ℝ) :
    (create_analysis_grid bounds grid_size_km).length =
      (stepPoints bounds.south bounds.north (grid_size_km / 111)).length *
      (stepPoints bounds.west bounds.east
        (grid_size_km /
          (111 * Real.cos (((bounds.north + bounds.south) / 2) * (Real.pi / 180))))).length := by
  unfold create_analysis_grid
  rw [List.length_map, List.enum_length, pairs_flatten_length]

/-- Source src/analyze.py lines 314 to 341: the CITY_BOUNDS table of
analyze_city, mapping the five configured city names to their bounds. -/
noncomputable def CITY_BOUNDS (city : String) : Option RegionBounds :=
  if city = "milan" then
    some { north := 45.535, south := 45.395, east := 9.280, west := 9.065 }
  else if city = "copenhagen" then
    some { north := 55.727, south := 55.615, east := 12.650, west := 12.453 }
  else if city = "bologna" then
    some { north := 44.5450, south := 44.4450, east := 11.4000, west := 11.2850 }
  else if city = "rome" then
    some { north := 42.0500, south := 41.7500, east := 12.7000, west := 12.3500 }
  else if city = "turin" then
    some { north := 45.1300, south := 45.0100, east := 7.7500, west := 7.6200 }
  else none

/-- Source src/analyze.py lines 343 to 344: the region lookup of
analyze_city, which raises ValueError for a city that is not configured
and otherwise hands the bounds to the rest of the workflow. -/
noncomputable def analyze_city_bounds (city : String) : Except String RegionBounds :=
  match CITY_BOUNDS city with
  | some b => Except.ok b
  | none => Except.error ("City " ++ city ++ " not configured")

/-- Outcome of the raster check at the top of add_population_to_analysis
(src/population_data.py lines 106 to 113): either the run halts after
printing download instructions, or it proceeds with the raster path. -/
inductive EnrichGate where
  | halted : String → EnrichGate
  | proceed : String → EnrichGate
deriving Repr, DecidableEq

/-- Source src/population_data.py lines 106 to 113: when no population
raster file is found the function prints download instructions and
returns early without enriching anything; otherwise enrichment proceeds. -/
def add_population_gate (pop_raster : Option String) : EnrichGate :=
  match pop_raster with
  | none => EnrichGate.halted "WORLDPOP DATA DOWNLOAD REQUIRED, script paused"
  | some p => EnrichGate.proceed p

lemma grid_empty_of_inverted_bounds (bounds : RegionBounds) (grid_size_km : ℝ)
    (h : bounds.north < bounds.south) :
    create_analysis_grid bounds grid_size_km = [] := by
  unfold create_analysis_grid
  rw [stepPoints_nil bounds.south bounds.north (grid_size_km / 111)
    (fun hc => absurd hc.1 (not_le.mpr h))]
  rfl

/-- C7 counterexample: the claim asserts that bounds with north at most
south cause a fatal configuration error rather than an empty or degenerate
grid, but the grid builder has no bounds validation at all: at the
concrete inverted bounds north 0, south 1 it silently returns the empty
grid value instead of an error. -/
theorem claim_C7_counterexample :
    create_analysis_grid { north := 0, south := 1, east := 1, west := 0 } 0.5 = [] :=
  grid_empty_of_inverted_bounds { north := 0, south := 1, east := 1, west := 0 } 0.5
    zero_lt_one

/-- C7 amended: requesting an unconfigured region name yields the fatal
ValueError of analyze_city; requesting demand-weighted enrichment with no
loadable population raster is reported to the user and the run halts
without enriching; but invalid bounds are not validated: with north below
south the grid builder silently returns an empty grid rather than raising
a configuration error. -/
theorem claim_C7_configuration_errors :
    (∀ city : String, CITY_BOUNDS city = none →
      analyze_city_bounds city = Except.error ("City " ++ city ++ " not configured")) ∧
    (∀ (bounds : RegionBounds) (grid_size_km : ℝ), bounds.north < bounds.south →
      create_analysis_grid bounds grid_size_km = []) ∧
    add_population_gate none =
      EnrichGate.halted "WORLDPOP DATA DOWNLOAD REQUIRED, script paused" := by
  refine ⟨?_, grid_empty_of_inverted_bounds, rfl⟩
  intro city hnone
  unfold analyze_city_bounds
  rw [hnone]

/-- Concrete instance discharging the hypotheses of the amended C7
theorem: the unknown city paris errors, the inverted bounds produce the
empty grid, and the missing raster halts enrichment. -/
theorem claim_C7_witness :
    analyze_city_bounds "paris" = Except.error ("City " ++ "paris" ++ " not configured") ∧
    create_analysis_grid { north := 0, south := 1, east := 1, west := 0 } 0.5 = [] ∧
    add_population_gate none =
      EnrichGate.halted "WORLDPOP DATA DOWNLOAD REQUIRED, script paused" :=
  ⟨claim_C7_configuration_errors.1 "paris" rfl,
   claim_C7_configuration_errors.2.1 { north := 0, south := 1, east := 1, west := 0 } 0.5
     zero_lt_one,
   claim_C7_configuration_errors.2.2⟩

/-- The Milan bounds of src/analyze.py line 316 and collect_data.py, used
by the grid count property of spec section 8. -/
noncomputable def milan_bounds : RegionBounds :=
  { north := 45.535, south := 45.395, east := 9.280, west := 9.065 }

lemma cos_02_lower : (0.98023 : ℝ) ≤ Real.cos 0.1984 := by
  have hb := Real.cos_bound
    (show |(0.1984 : ℝ)| ≤ 1 by
      rw [abs_of_nonneg (by norm_num : (0 : ℝ) ≤ 0.1984)]; norm_num)
  have h1 := (abs_sub_le_iff.mp hb).2
  rw [abs_of_nonneg (by norm_num : (0 : ℝ) ≤ 0.1984)] at h1
  have e2 : (0.1984 : ℝ) ^ 2 = 0.03936256 := by norm_num
  have e4 : (0.1984 : ℝ) ^ 4 = 0.0015494111297536 := by norm_num
  rw [e2, e4] at h1
  linarith

lemma cos_04_lower : (0.9217 : ℝ) ≤ Real.cos 0.3968 := by
  have h := Real.cos_two_mul (0.1984 : ℝ)
  rw [show (2 : ℝ) * 0.1984 = 0.3968 by norm_num] at h
  have hc := cos_02_lower
  nlinarith [hc, h]

lemma cos_08_lower : (0.699 : ℝ) ≤ Real.cos 0.7936 := by
  have h := Real.cos_two_mul (0.3968 : ℝ)
  rw [show (2 : ℝ) * 0.3968 = 0.7936 by norm_num] at h
  have hc := cos_04_lower
  nlinarith [hc, h]

lemma cos_079_upper : Real.cos 0.7935 ≤ 0.70583 := by
  have hb := Real.cos_bound
    (show |(0.7935 : ℝ)| ≤ 1 by
      rw [abs_of_nonneg (by norm_num : (0 : ℝ) ≤ 0.7935)]; norm_num)
  have h1 := (abs_sub_le_iff.mp hb).1
  rw [abs_of_nonneg (by norm_num : (0 : ℝ) ≤ 0.7935)] at h1
  have e2 : (0.7935 : ℝ) ^ 2 = 0.62964225 := by norm_num
  have e4 : (0.7935 : ℝ) ^ 4 = 0.3964493629850625 := by norm_num
  rw [e2, e4] at h1
  linarith

lemma milan_center_radians_bounds :
    (0.7935 : ℝ) < ((45.535 + 45.395) / 2) * (Real.pi / 180) ∧
    ((45.535 + 45.395) / 2) * (Real.pi / 180) < 0.7936 := by
  have h1 := Real.pi_gt_d6
  have h2 := Real.pi_lt_d6
  constructor <;> nlinarith

lemma milan_cos_bounds :
    (0.699 : ℝ) ≤ Real.cos (((45.535 + 45.395) / 2) * (Real.pi / 180)) ∧
    Real.cos (((45.535 + 45.395) / 2) * (Real.pi / 180)) ≤ 0.70583 := by
  obtain ⟨ha, hb⟩ := milan_center_radians_bounds
  have hpi := Real.pi_gt_d6
  constructor
  · have hmono : Real.cos 0.7936 <
        Real.cos (((45.535 + 45.395) / 2) * (Real.pi / 180)) :=
      Real.cos_lt_cos_of_nonneg_of_le_pi (by linarith) (by linarith) hb
    linarith [cos_08_lower]
  · have hmono : Real.cos (((45.535 + 45.395) / 2) * (Real.pi / 180)) <
        Real.cos 0.7935 :=
      Real.cos_lt_cos_of_nonneg_of_le_pi (by norm_num) (by linarith) ha
    linarith [cos_079_upper]

/-- C8: for the Milan bounds and spacing 0.5 km, the unfiltered grid has
exactly the ceiling of (north minus south over the latitude step) times
the ceiling of (east minus west over the longitude step) cells, namely
32 times 34, under the boundary-inclusive stepping loop starting at the
south west corner. -/
theorem claim_C8_milan_grid_count :
    ((create_analysis_grid milan_bounds 0.5).length : ℤ) =
      ⌈(milan_bounds.north - milan_bounds.south) / (0.5 / 111)⌉ *
      ⌈(milan_bounds.east - milan_bounds.west) /
        (0.5 / (111 * Real.cos (((milan_bounds.north + milan_bounds.south) / 2) *
          (Real.pi / 180))))⌉ := by
  obtain ⟨hclo, hchi⟩ := milan_cos_bounds
  have hcpos : (0 : ℝ) <
      Real.cos (((45.535 + 45.395) / 2) * (Real.pi / 180)) := by linarith
  have hlngpos : (0 : ℝ) <
      0.5 / (111 * Real.cos (((45.535 + 45.395) / 2) * (Real.pi / 180))) := by
    apply div_pos (by norm_num)
    nlinarith
  have hlatratio : ((45.535 : ℝ) - 45.395) / (0.5 / 111) = 31.08 := by norm_num
  have hlngratio : ((9.280 : ℝ) - 9.065) /
      (0.5 / (111 * Real.cos (((45.535 + 45.395) / 2) * (Real.pi / 180)))) =
      47.73 * Real.cos (((45.535 + 45.395) / 2) * (Real.pi / 180)) := by
    rw [div_div_eq_mul_div]
    field_simp
    ring
  have hlng33 : (33 : ℝ) <
      47.73 * Real.cos (((45.535 + 45.395) / 2) * (Real.pi / 180)) := by nlinarith
  have hlng34 :
      47.73 * Real.cos (((45.535 + 45.395) / 2) * (Real.pi / 180)) < (34 : ℝ) := by
    nlinarith
  have hlatfloor : ⌊((45.535 : ℝ) - 45.395) / (0.5 / 111)⌋ = (31 : ℤ) := by
    rw [hlatratio]
    rw [Int.floor_eq_iff]
    constructor <;> norm_num
  have hlatceil : ⌈((45.535 : ℝ) - 45.395) / (0.5 / 111)⌉ = (32 : ℤ) := by
    rw [hlatratio]
    rw [Int.ceil_eq_iff]
    constructor <;> norm_num
  have hlngfloor : ⌊((9.280 : ℝ) - 9.065) /
      (0.5 / (111 * Real.cos (((45.535 + 45.395) / 2) * (Real.pi / 180))))⌋ =
      (33 : ℤ) := by
    rw [hlngratio, Int.floor_eq_iff]
    constructor
    · push_cast
      linarith
    · push_cast
      linarith
  have hlngceil : ⌈((9.280 : ℝ) - 9.065) /
      (0.5 / (111 * Real.cos (((45.535 + 45.395) / 2) * (Real.pi / 180))))⌉ =
      (34 : ℤ) := by
    rw [hlngratio, Int.ceil_eq_iff]
    constructor
    · push_cast
      linarith
    · push_cast
      linarith
  have hlatlen : (stepPoints (45.395 : ℝ) 45.535 (0.5 / 111)).length = 32 := by
    rw [stepPoints_length _ _ _ (by norm_num) (by norm_num), hlatfloor]
    rfl
  have hlnglen : (stepPoints (9.065 : ℝ) 9.280
      (0.5 / (111 * Real.cos (((45.535 + 45.395) / 2) * (Real.pi / 180))))).length =
      34 := by
    rw [stepPoints_length _ _ _ hlngpos (by norm_num), hlngfloor]
    rfl
  have hlen := create_analysis_grid_length milan_bounds 0.5
  simp only [milan_bounds] at hlen
  simp only [milan_bounds, hlen, hlatlen, hlnglen, hlatceil, hlngceil]
  norm_num
